import Mathlib

/-!
Verification development for `tools/summarize_logs.py`, a log-summarization
utility: it reads a JSON array (or JSON-lines) of poker-platform game events
from standard input, filters events attributable to a named team, and emits a
tab-separated table of that team's betting actions and round outcomes.

The embedding models JSON values as the inductive type `JVal` (JSON numbers are
modelled as integers; payloads with fractional numbers are outside the model),
Python dictionary/sequence primitives (`.get`, `len`, `in`, `str()`) as total
Lean functions returning `Except Err _` where the Python operation can raise,
and `json.loads` as a fuel-indexed recursive-descent parser over the character
list of the input.  The main pass `main` mirrors the script line by line:
strip stdin, attempt a whole-input decode, fall back to per-line decoding,
print the header, then one pass over the decoded events.
-/

namespace SummarizeLogs

/-- JSON values as produced by `json.loads`: null, booleans, (integer) numbers,
strings, arrays and objects (association lists in insertion order). -/
inductive JVal where
  | null
  | bool (b : Bool)
  | num (n : Int)
  | str (s : String)
  | arr (xs : List JVal)
  | obj (kvs : List (String × JVal))

/-- Runtime errors the Python script can raise besides JSON decode errors. -/
inductive Err where
  | attributeError
  | typeError
  | decodeError
deriving DecidableEq, Repr

/-- Whitespace characters stripped by `str.strip()` and skipped by the JSON
decoder. -/
def isWsChar (c : Char) : Bool :=
  c = ' ' || c = '\t' || c = '\n' || c = '\r'

/-- Python `str.strip()`: remove leading and trailing whitespace. -/
def pyStrip (s : String) : String :=
  String.mk (((s.data.dropWhile isWsChar).reverse.dropWhile isWsChar).reverse)

/-- Split a character list on newline characters. -/
def splitOnNl : List Char → List (List Char)
  | [] => [[]]
  | c :: rest =>
    if c = '\n' then [] :: splitOnNl rest
    else
      match splitOnNl rest with
      | [] => [[c]]
      | p :: ps => (c :: p) :: ps

/-- Python `str.splitlines()` (restricted to `\n` line breaks): split on
newlines, with no trailing empty line for a trailing newline and `[]` for the
empty string. -/
def splitLines (s : String) : List String :=
  if s.data = [] then []
  else
    let parts := (splitOnNl s.data).map String.mk
    if s.data.getLast? = some '\n' then parts.dropLast else parts

/-- Python `needle in hay` for strings: contiguous-substring containment. -/
def hasSubstr (hay needle : String) : Bool :=
  hay.data.tails.any (fun t => needle.data.isPrefixOf t)

/-- Escape one character the way Python `repr` renders it inside a
single-quoted string literal (common cases). -/
def reprEscapeChar (c : Char) : String :=
  if c = '\\' then "\\\\"
  else if c = '\n' then "\\n"
  else if c = '\r' then "\\r"
  else if c = '\t' then "\\t"
  else if c = Char.ofNat 39 then "\\\x27"
  else String.singleton c

/-- Escape a whole string for Python `repr` (common cases; Python's choice of
quote character for strings containing quotes is simplified to single quotes). -/
def reprEscape (s : String) : String :=
  String.join (s.data.map reprEscapeChar)

mutual

/-- Python `repr` of a decoded JSON value (as used by `str()` on containers). -/
def pyRepr : JVal → String
  | .null => "None"
  | .bool true => "True"
  | .bool false => "False"
  | .num n => toString n
  | .str s => "\x27" ++ reprEscape s ++ "\x27"
  | .arr xs => "[" ++ String.intercalate ", " (pyReprList xs) ++ "]"
  | .obj kvs => "\x7b" ++ String.intercalate ", " (pyReprPairs kvs) ++ "\x7d"

/-- Rendering of each element of a list value. -/
def pyReprList : List JVal → List String
  | [] => []
  | v :: vs => pyRepr v :: pyReprList vs

/-- Rendering of each key/value pair of an object value. -/
def pyReprPairs : List (String × JVal) → List String
  | [] => []
  | (k, v) :: kvs =>
    ("\x27" ++ reprEscape k ++ "\x27: " ++ pyRepr v) :: pyReprPairs kvs

end

/-- Python `str()` of a decoded JSON value, as interpolated by the f-strings
of the script: strings render as themselves, other values as their `repr`. -/
def pyStr : JVal → String
  | .str s => s
  | v => pyRepr v

/-- First value bound to `key` in an association list (Python dicts produced
by `json.loads` have unique keys, so first = only). -/
def lookupKey : List (String × JVal) → String → Option JVal
  | [], _ => none
  | (k, v) :: kvs, key => if k = key then some v else lookupKey kvs key

/-- Python `v.get(key, dflt)`: defaulting dictionary lookup; raises
`AttributeError` when `v` is not a dict. -/
def jGet (v : JVal) (key : String) (dflt : JVal) : Except Err JVal :=
  match v with
  | .obj kvs => .ok ((lookupKey kvs key).getD dflt)
  | _ => .error .attributeError

/-- Python `len(v)`: defined on sequences and dicts, `TypeError` otherwise. -/
def pyLen : JVal → Except Err Nat
  | .arr xs => .ok xs.length
  | .str s => .ok s.length
  | .obj kvs => .ok kvs.length
  | _ => .error .typeError

/-- Python `needle in v` for a string needle: substring test on strings,
element test on lists, key test on dicts, `TypeError` otherwise. -/
def pyEqStr (v : JVal) (s : String) : Bool :=
  match v with
  | .str t => t = s
  | _ => false

/-- Python `needle in v` for a string `needle`. -/
def pyIn (needle : String) (v : JVal) : Except Err Bool :=
  match v with
  | .str s => .ok (hasSubstr s needle)
  | .arr xs => .ok (xs.any (fun x => pyEqStr x needle))
  | .obj kvs => .ok (kvs.any (fun kv => kv.1 = needle))
  | _ => .error .typeError

/-- The street-name table `(0 : PRE, 3 : FLOP, 4 : TURN, 5 : RIVER)` with
`str(n)` as the default. -/
def streetName (n : Nat) : String :=
  if n = 0 then "PRE"
  else if n = 3 then "FLOP"
  else if n = 4 then "TURN"
  else if n = 5 then "RIVER"
  else toString n

/-- The function `street_from_state(state)`: `cc = state.get("community_cards", [])`,
`n = len(cc)`, then the street-name table. -/
def street_from_state (state : JVal) : Except Err String := do
  let cc ← jGet state "community_cards" (.arr [])
  let n ← pyLen cc
  pure (streetName n)

/-- The class `\w` of the amount regular expression (ASCII word characters). -/
def isWordChar (c : Char) : Bool :=
  c.isAlphanum || c = '_'

/-- Drop a literal from the front of the character list, or fail. -/
def dropLit (lit : String) (cs : List Char) : Option (List Char) :=
  if lit.data.isPrefixOf cs then some (cs.drop lit.data.length) else none

/-- First alternative `bet of (\d+)` anchored at the current position:
the literal `bet of ` followed by a maximal nonempty digit run (group 1). -/
def tryAlt1 (cs : List Char) : Option String :=
  match dropLit "bet of " cs with
  | none => none
  | some cs1 =>
    let ds := cs1.takeWhile Char.isDigit
    if ds.isEmpty then none else some (String.mk ds)

/-- Second alternative `bet of 0 \((\w+)\)` anchored at the current position:
the literal `bet of 0 (` followed by a maximal nonempty word run (group 2)
and a closing parenthesis. -/
def tryAlt2 (cs : List Char) : Option String :=
  match dropLit "bet of 0 (" cs with
  | none => none
  | some cs1 =>
    let ws := cs1.takeWhile isWordChar
    if ws.isEmpty then none
    else if (cs1.drop ws.length).head? = some ')' then some (String.mk ws)
    else none

/-- Model of `re.search(r"bet of (\d+)|bet of 0 \((\w+)\)", msg)`: scan positions left
to right; at each position try the first alternative, then the second; return
the capture groups `(group 1, group 2)` of the first match. -/
def reSearchBetOf : List Char → Option (Option String × Option String)
  | [] => none
  | c :: rest =>
    match tryAlt1 (c :: rest) with
    | some d => some (some d, none)
    | none =>
      match tryAlt2 (c :: rest) with
      | some w => some (none, some w)
      | none => reSearchBetOf rest

/-- The amount field: `amt = "0"; if m: amt = m.group(1) or "0"`. -/
def amtOf (msg : String) : String :=
  match reSearchBetOf msg.data with
  | none => "0"
  | some (g1, _) =>
    match g1 with
    | some s => if s = "" then "0" else s
    | none => "0"

/-- The action classifier, in the script's exact priority order. -/
def actOf (msg : String) (amt : String) : String :=
  if hasSubstr msg "(call)" then "call"
  else if hasSubstr msg "(raise)" then "raise"
  else if hasSubstr msg "(check)" then "check"
  else if amt ≠ "0" then "bet"
  else if hasSubstr msg "(fold)" then "fold"
  else "?"

/-! ### The JSON decoder (`json.loads`) -/

/-- Skip JSON whitespace. -/
def skipWs (cs : List Char) : List Char := cs.dropWhile isWsChar

/-- Parse a literal keyword, yielding a fixed value. -/
def parseLit (lit : String) (v : JVal) (cs : List Char) :
    Option (JVal × List Char) :=
  if lit.data.isPrefixOf cs then some (v, cs.drop lit.data.length) else none

/-- Value of a decimal digit run. -/
def digitsToNat (ds : List Char) : Nat :=
  ds.foldl (fun acc c => acc * 10 + (c.toNat - 48)) 0

/-- Parse a JSON integer (optional minus sign, nonempty digit run). -/
def parseNum (cs : List Char) : Option (JVal × List Char) :=
  match cs with
  | '-' :: rest =>
    let ds := rest.takeWhile Char.isDigit
    if ds.isEmpty then none
    else some (.num (-(Int.ofNat (digitsToNat ds))), rest.drop ds.length)
  | _ =>
    let ds := cs.takeWhile Char.isDigit
    if ds.isEmpty then none
    else some (.num (Int.ofNat (digitsToNat ds)), cs.drop ds.length)

/-- Parse the body of a JSON string literal after the opening quote, handling
the standard single-character escapes; returns the decoded characters and the
remainder after the closing quote. -/
def parseStringChars : Nat → List Char → Option (List Char × List Char)
  | 0, _ => none
  | _ + 1, [] => none
  | fuel + 1, c :: rest =>
    if c = '"' then some ([], rest)
    else if c = '\\' then
      match rest with
      | [] => none
      | e :: rest2 =>
        let ec : Option Char :=
          if e = '"' then some '"'
          else if e = '\\' then some '\\'
          else if e = '/' then some '/'
          else if e = 'n' then some '\n'
          else if e = 't' then some '\t'
          else if e = 'r' then some '\r'
          else if e = 'b' then some (Char.ofNat 8)
          else if e = 'f' then some (Char.ofNat 12)
          else none
        match ec with
        | some d =>
          match parseStringChars fuel rest2 with
          | some (s, rem) => some (d :: s, rem)
          | none => none
        | none => none
    else
      match parseStringChars fuel rest with
      | some (s, rem) => some (c :: s, rem)
      | none => none

mutual

/-- Parse one JSON value (fuel-indexed recursive descent). -/
def parseVal : Nat → List Char → Option (JVal × List Char)
  | 0, _ => none
  | fuel + 1, cs0 =>
    match skipWs cs0 with
    | [] => none
    | c :: rest =>
      if c = '"' then
        match parseStringChars (rest.length + 1) rest with
        | some (s, rem) => some (.str (String.mk s), rem)
        | none => none
      else if c = '[' then
        match skipWs rest with
        | ']' :: rem => some (.arr [], rem)
        | rest2 =>
          match parseArrItems fuel rest2 with
          | some (vs, rem) => some (.arr vs, rem)
          | none => none
      else if c = '\x7b' then
        match skipWs rest with
        | '\x7d' :: rem => some (.obj [], rem)
        | rest2 =>
          match parseObjItems fuel rest2 with
          | some (kvs, rem) => some (.obj kvs, rem)
          | none => none
      else if c = 'n' then parseLit "ull" .null rest
      else if c = 't' then parseLit "rue" (.bool true) rest
      else if c = 'f' then parseLit "alse" (.bool false) rest
      else parseNum (c :: rest)

/-- Parse the elements of a nonempty JSON array (after the opening bracket). -/
def parseArrItems : Nat → List Char → Option (List JVal × List Char)
  | 0, _ => none
  | fuel + 1, cs =>
    match parseVal fuel cs with
    | none => none
    | some (v, rest) =>
      match skipWs rest with
      | ',' :: rest2 =>
        match parseArrItems fuel rest2 with
        | some (vs, rem) => some (v :: vs, rem)
        | none => none
      | ']' :: rest2 => some ([v], rest2)
      | _ => none

/-- Parse the members of a nonempty JSON object (after the opening brace). -/
def parseObjItems : Nat → List Char →
    Option (List (String × JVal) × List Char)
  | 0, _ => none
  | fuel + 1, cs =>
    match skipWs cs with
    | '"' :: rest =>
      match parseStringChars (rest.length + 1) rest with
      | none => none
      | some (k, rest2) =>
        match skipWs rest2 with
        | ':' :: rest3 =>
          match parseVal fuel rest3 with
          | none => none
          | some (v, rest4) =>
            match skipWs rest4 with
            | ',' :: rest5 =>
              match parseObjItems fuel rest5 with
              | some (kvs, rem) => some ((String.mk k, v) :: kvs, rem)
              | none => none
            | '\x7d' :: rest5 => some ([(String.mk k, v)], rest5)
            | _ => none
        | _ => none
    | _ => none

end

/-- Model of `json.loads`: parse one JSON value and require only whitespace after it
(Python raises on trailing data, which is what makes a multi-line JSON-lines
payload fail the whole-input decode). -/
def loads (s : String) : Option JVal :=
  match parseVal (2 * s.length + 2) s.data with
  | some (v, rest) => if (skipWs rest).isEmpty then some v else none
  | none => none

/-! ### The main pass -/

/-- The fixed TSV header line. -/
def headerLine : String := "round\tstreet\taction\tamount\tpot\tbuyin\tmessage"

/-- Join row fields with tab characters, as the output f-strings do. -/
def tabRow (fs : List String) : String := String.intercalate "\t" fs

/-- The body of the `for ev in events` loop for one event: classify the event
and produce its output row (`some row`), no row (`none`), or the runtime error
the Python expression raises, in the script's evaluation order. -/
def processEvent (team : String) (ev : JVal) : Except Err (Option String) := do
  let t ← jGet ev "type" (.str "")
  let gs ← jGet ev "game_state" (.obj [])
  let msg ← jGet ev "message" (.str "")
  if pyEqStr t "bet" then do
    let hit ← pyIn team msg
    if hit then
      match msg with
      | .str m => do
        let rnd ← jGet gs "round" (.str "")
        let st ← street_from_state gs
        let amt := amtOf m
        let act := actOf m amt
        let pot ← jGet gs "pot" (.str "")
        let buyin ← jGet gs "current_buy_in" (.str "")
        pure (some (tabRow [pyStr rnd, st, act, amt, pyStr pot, pyStr buyin, m]))
      | _ => do
        -- message passed the containment test without being a string
        -- (list/dict); `re.search` on it then raises TypeError, after the
        -- round and street expressions were already evaluated.
        let _ ← jGet gs "round" (.str "")
        let _ ← street_from_state gs
        Except.error Err.typeError
    else pure none
  else if pyEqStr t "winner_announcement" then do
    let hit ← pyIn team msg
    if hit then do
      let rnd ← jGet gs "round" (.str "")
      let st ← street_from_state gs
      let pot ← jGet gs "pot" (.str "")
      let buyin ← jGet gs "current_buy_in" (.str "")
      pure (some (tabRow [pyStr rnd, st, "won", "", pyStr pot, pyStr buyin,
        pyStr msg]))
    else pure none
  else pure none

/-- The event loop: emitted rows in order, stopping at the first runtime
error (the uncaught exception aborts the loop; earlier rows stand). -/
def processEvents (team : String) : List JVal → List String × Option Err
  | [] => ([], none)
  | ev :: rest =>
    match processEvent team ev with
    | .error e => ([], some e)
    | .ok none => processEvents team rest
    | .ok (some row) =>
      let p := processEvents team rest
      (row :: p.1, p.2)

/-- Header plus the event loop: everything printed after decoding succeeds. -/
def summarizeEvents (team : String) (evs : List JVal) :
    List String × Option Err :=
  let p := processEvents team evs
  (headerLine :: p.1, p.2)

/-- Python `for ev in events` iteration: lists yield their elements, strings
their characters, dicts their keys; other values raise `TypeError`. -/
def pyIter (v : JVal) : Except Err (List JVal) :=
  match v with
  | .arr xs => .ok xs
  | .str s => .ok (s.data.map (fun c => .str (String.singleton c)))
  | .obj kvs => .ok (kvs.map (fun kv => .str kv.1))
  | _ => .error .typeError

/-- The JSON-lines fallback comprehension
`[json.loads(line) for line in data.splitlines() if line.strip()]`:
decode each non-blank line in order; the first failing line raises a decode
error that discards everything. -/
def decodeLinesGo : List String → Except Err (List JVal)
  | [] => .ok []
  | l :: ls =>
    if pyStrip l = "" then decodeLinesGo ls
    else
      match loads l with
      | some v =>
        match decodeLinesGo ls with
        | .ok vs => .ok (v :: vs)
        | .error e => .error e
      | none => .error .decodeError

/-- The whole JSON-lines fallback applied to the stripped input. -/
def decodeAllLines (data : String) : Except Err (List JVal) :=
  decodeLinesGo (splitLines data)

/-- The whole program on one invocation: team name (defaulted by the caller)
and the raw stdin text, returning the stdout lines and the uncaught error,
if any.  Mirrors `main()`: strip, whole-input decode with JSON-lines
fallback, header, event loop. -/
def main (team : String) (input : String) : List String × Option Err :=
  match loads (pyStrip input) with
  | some v =>
    match pyIter v with
    | .ok evs => summarizeEvents team evs
    | .error e => ([headerLine], some e)
  | none =>
    match decodeAllLines (pyStrip input) with
    | .ok evs => summarizeEvents team evs
    | .error e => ([], some e)

/-- Process exit status: 0 on a clean pass, 1 when an exception escapes. -/
def exitCode (r : List String × Option Err) : Nat :=
  match r.2 with
  | none => 0
  | some _ => 1

/-! ### Well-formedness and relevance predicates (from the spec's data model) -/

/-- The `message` field, when present, is a string. -/
def msgOk (kvs : List (String × JVal)) : Bool :=
  match lookupKey kvs "message" with
  | none => true
  | some (.str _) => true
  | some _ => false

/-- The `community_cards` field, when present, is an array. -/
def ccOk (gkvs : List (String × JVal)) : Bool :=
  match lookupKey gkvs "community_cards" with
  | none => true
  | some (.arr _) => true
  | some _ => false

/-- The `game_state` field, when present, is an object with well-formed
`community_cards`. -/
def gsOk (kvs : List (String × JVal)) : Bool :=
  match lookupKey kvs "game_state" with
  | none => true
  | some (.obj gkvs) => ccOk gkvs
  | some _ => false

/-- An event per the spec's data model: a record whose `message` is a string
(free text) and whose `game_state` is a nested record with a sequence of
community cards; the fields may be absent (defaults apply). -/
def WellFormedEv : JVal → Bool
  | .obj kvs => msgOk kvs && gsOk kvs
  | _ => false

/-- The counting predicate of the spec: (`type == "bet"` and team ⊆ message)
or (`type == "winner_announcement"` and team ⊆ message). -/
def relevantEv (team : String) : JVal → Bool
  | .obj kvs =>
    let t := (lookupKey kvs "type").getD (.str "")
    let sub :=
      match (lookupKey kvs "message").getD (.str "") with
      | .str m => hasSubstr m team
      | _ => false
    (pyEqStr t "bet" && sub) || (pyEqStr t "winner_announcement" && sub)
  | _ => false

/-- The row an event contributes, if any (`none` for skipped or crashing
events). -/
def rowOpt (team : String) (ev : JVal) : Option String :=
  match processEvent team ev with
  | .ok (some r) => some r
  | _ => none

/-! ### Theorems -/

/-- Claim C2: `street_from_state` is a pure total function over every record
whose `community_cards` field is absent or is a sequence: it returns `"PRE"`
when the sequence length is 0 (including when the field is absent), `"FLOP"`
when the length is 3, `"TURN"` when 4, `"RIVER"` when 5, and the decimal
string form of the length for every other length. -/
theorem c2_street_total (gkvs : List (String × JVal)) (xs : List JVal) :
    (lookupKey gkvs "community_cards" = none →
      street_from_state (.obj gkvs) = .ok "PRE") ∧
    (lookupKey gkvs "community_cards" = some (.arr xs) →
      street_from_state (.obj gkvs) =
        .ok (if xs.length = 0 then "PRE"
             else if xs.length = 3 then "FLOP"
             else if xs.length = 4 then "TURN"
             else if xs.length = 5 then "RIVER"
             else toString xs.length)) := by
  constructor
  · intro h
    simp [street_from_state, jGet, h, pyLen, streetName, Except.bind, bind,
      pure, Except.pure]
  · intro h
    simp [street_from_state, jGet, h, pyLen, streetName, Except.bind, bind,
      pure, Except.pure]

/-- Witness for C2 at concrete game states: absent `community_cards` gives
`"PRE"`, a three-card board gives `"FLOP"`. -/
theorem c2_street_total_witness :
    street_from_state (.obj []) = .ok "PRE" ∧
    street_from_state (.obj [("community_cards",
      .arr [.null, .null, .null])]) = .ok "FLOP" := by
  constructor
  · exact (c2_street_total [] []).1 rfl
  · have h := (c2_street_total [("community_cards",
      JVal.arr [.null, .null, .null])] [.null, .null, .null]).2 rfl
    simpa using h

/-- Claim C3: the action field is computed by this exact priority order over
the message and the extracted amount: `"call"` if the message contains
`"(call)"`; else `"raise"` if it contains `"(raise)"`; else `"check"` if it
contains `"(check)"`; else `"bet"` if the amount string is not `"0"`; else
`"fold"` if the message contains `"(fold)"`; else `"?"`.  In particular, a
message containing both `"(call)"` and a non-zero parsed amount classifies as
`"call"`. -/
theorem c3_action_priority (m : String) :
    (hasSubstr m "(call)" = true → actOf m (amtOf m) = "call") ∧
    (hasSubstr m "(call)" = false → hasSubstr m "(raise)" = true →
      actOf m (amtOf m) = "raise") ∧
    (hasSubstr m "(call)" = false → hasSubstr m "(raise)" = false →
      hasSubstr m "(check)" = true → actOf m (amtOf m) = "check") ∧
    (hasSubstr m "(call)" = false → hasSubstr m "(raise)" = false →
      hasSubstr m "(check)" = false → amtOf m ≠ "0" →
      actOf m (amtOf m) = "bet") ∧
    (hasSubstr m "(call)" = false → hasSubstr m "(raise)" = false →
      hasSubstr m "(check)" = false → amtOf m = "0" →
      hasSubstr m "(fold)" = true → actOf m (amtOf m) = "fold") ∧
    (hasSubstr m "(call)" = false → hasSubstr m "(raise)" = false →
      hasSubstr m "(check)" = false → amtOf m = "0" →
      hasSubstr m "(fold)" = false → actOf m (amtOf m) = "?") ∧
    (hasSubstr m "(call)" = true → amtOf m ≠ "0" →
      actOf m (amtOf m) = "call") := by
  refine ⟨?_, ?_, ?_, ?_, ?_, ?_, ?_⟩ <;> intros <;> simp [actOf, *]

/-- Witness for C3: the spec's bet message carrying both `(call)` and a
non-zero amount classifies as `"call"`. -/
theorem c3_action_priority_witness :
    actOf "The Real Donkey Killers: bet of 40 (call)"
      (amtOf "The Real Donkey Killers: bet of 40 (call)") = "call" :=
  (c3_action_priority "The Real Donkey Killers: bet of 40 (call)").2.2.2.2.2.2
    (by decide) (by decide)

/-- Claim C8: an empty or whitespace-only stdin payload raises no decode
error: the stripped input fails the whole-input decode, the line fallback
yields no events, and the program prints only the header and exits 0. -/
theorem c8_blank_input (team s : String) (h : pyStrip s = "") :
    main team s = ([headerLine], none) ∧ exitCode (main team s) = 0 := by
  have h1 : main team s = ([headerLine], none) := by
    unfold main
    rw [h]
    rfl
  exact ⟨h1, by rw [h1]; rfl⟩

/-- Witness for C8 at a whitespace-only payload. -/
theorem c8_blank_input_witness :
    main "The Real Donkey Killers" " \n\t " = ([headerLine], none) ∧
    exitCode (main "The Real Donkey Killers" " \n\t ") = 0 :=
  c8_blank_input "The Real Donkey Killers" " \n\t " (by decide)

/-- Claim C10: there is an input at the public interface for which the
program neither emits a well-formed table nor reports a decode error: a
single JSON object on stdin decodes, iteration visits its string keys, and
the `.get` attribute access on a string raises an uncaught `AttributeError`
after the header has already been printed. -/
theorem c10_object_input_crash :
    main "The Real Donkey Killers" "\x7b\"a\": 1\x7d" =
      ([headerLine], some Err.attributeError) ∧
    Err.attributeError ≠ Err.decodeError := by
  exact ⟨by rfl, by decide⟩

/-- Claim C5 (amended): whenever the newline-delimited payload fails the
whole-input JSON decode (as it does whenever it holds two or more records),
feeding the logical event sequence as a single JSON array and feeding it as
newline-delimited records produce byte-identical output. -/
theorem c5_encodings_agree (team sA sL : String) (evs : List JVal)
    (hA : loads (pyStrip sA) = some (.arr evs))
    (hL : loads (pyStrip sL) = none)
    (hLs : decodeAllLines (pyStrip sL) = .ok evs) :
    main team sA = main team sL := by
  unfold main
  rw [hA, hL, hLs]
  rfl

/-- Counterexample to C5 as stated: a one-record sequence.  Both payloads
below encode the same logical singleton event sequence (the first decodes as
a JSON array of it, the second is its JSON-lines form, whose lines decode to
it), yet the array run prints a data row and exits cleanly while the
JSON-lines run decodes as a single object, iterates its keys, and dies with
an `AttributeError` right after the header. -/
theorem c5_counterexample :
    loads (pyStrip "[\x7b\"type\":\"winner_announcement\",\"message\":\"The Real Donkey Killers win\"\x7d]")
      = some (.arr [.obj [("type", .str "winner_announcement"),
                          ("message", .str "The Real Donkey Killers win")]]) ∧
    decodeAllLines (pyStrip "\x7b\"type\":\"winner_announcement\",\"message\":\"The Real Donkey Killers win\"\x7d")
      = .ok [.obj [("type", .str "winner_announcement"),
                   ("message", .str "The Real Donkey Killers win")]] ∧
    (main "The Real Donkey Killers"
        "[\x7b\"type\":\"winner_announcement\",\"message\":\"The Real Donkey Killers win\"\x7d]").1 ≠
      (main "The Real Donkey Killers"
        "\x7b\"type\":\"winner_announcement\",\"message\":\"The Real Donkey Killers win\"\x7d").1 ∧
    (main "The Real Donkey Killers"
        "[\x7b\"type\":\"winner_announcement\",\"message\":\"The Real Donkey Killers win\"\x7d]").2 = none ∧
    (main "The Real Donkey Killers"
        "\x7b\"type\":\"winner_announcement\",\"message\":\"The Real Donkey Killers win\"\x7d").2 =
      some Err.attributeError := by
  refine ⟨by rfl, by rfl, by decide, by rfl, by rfl⟩

/-- Witness for the amended C5 at a two-record sequence: the JSON-array and
JSON-lines payloads below produce identical runs. -/
theorem c5_encodings_agree_witness :
    main "The Real Donkey Killers"
        "[\x7b\"type\":\"bet\"\x7d,\x7b\"type\":\"log\"\x7d]" =
      main "The Real Donkey Killers"
        "\x7b\"type\":\"bet\"\x7d\n\x7b\"type\":\"log\"\x7d" :=
  c5_encodings_agree "The Real Donkey Killers"
    "[\x7b\"type\":\"bet\"\x7d,\x7b\"type\":\"log\"\x7d]"
    "\x7b\"type\":\"bet\"\x7d\n\x7b\"type\":\"log\"\x7d"
    [.obj [("type", .str "bet")], .obj [("type", .str "log")]]
    (by rfl) (by rfl) (by rfl)

/-- In the JSON-lines fallback, one undecodable non-blank line poisons the
whole comprehension. -/
theorem decodeLinesGo_error (ls : List String) (l : String)
    (hmem : l ∈ ls) (hnb : pyStrip l ≠ "") (hbad : loads l = none) :
    decodeLinesGo ls = .error Err.decodeError := by
  induction ls with
  | nil => cases hmem
  | cons l' rest ih =>
    rw [decodeLinesGo]
    rcases List.mem_cons.mp hmem with rfl | hmem'
    · rw [if_neg hnb, hbad]
    · by_cases hb : pyStrip l' = ""
      · rw [if_pos hb]
        exact ih hmem'
      · rw [if_neg hb]
        cases hl' : loads l' with
        | none => rfl
        | some v => rw [ih hmem']


/-- Claim C6: when the whole-input decode fails and the program falls back to
line-by-line decoding, a decode failure on any individual non-blank line is
fatal: the error propagates, the run aborts with a non-zero status, and no
events from any line are processed or recovered (nothing is printed). -/
theorem c6_fallback_line_error_fatal (team s l : String)
    (hw : loads (pyStrip s) = none)
    (hmem : l ∈ splitLines (pyStrip s))
    (hnb : pyStrip l ≠ "") (hbad : loads l = none) :
    main team s = ([], some Err.decodeError) ∧
    exitCode (main team s) = 1 := by
  have hd : decodeAllLines (pyStrip s) = .error Err.decodeError :=
    decodeLinesGo_error _ _ hmem hnb hbad
  have h1 : main team s = ([], some Err.decodeError) := by
    unfold main
    rw [hw, hd]
  exact ⟨h1, by rw [h1]; rfl⟩

/-- Witness for C6: a two-line payload whose first line is not JSON aborts
the whole run with a decode error. -/
theorem c6_fallback_line_error_fatal_witness :
    main "The Real Donkey Killers" "nope\n1" = ([], some Err.decodeError) ∧
    exitCode (main "The Real Donkey Killers" "nope\n1") = 1 :=
  c6_fallback_line_error_fatal "The Real Donkey Killers" "nope\n1" "nope"
    (by rfl) (by decide) (by decide) (by rfl)

/-- A successful first alternative captures a nonempty digit string. -/
theorem tryAlt1_some_digits (cs : List Char) (d : String)
    (h : tryAlt1 cs = some d) :
    d ≠ "" ∧ d.data.all Char.isDigit = true := by
  unfold tryAlt1 at h
  cases hdl : dropLit "bet of " cs with
  | none => rw [hdl] at h; cases h
  | some cs1 =>
    rw [hdl] at h
    dsimp only at h
    by_cases he : (cs1.takeWhile Char.isDigit).isEmpty = true
    · rw [if_pos he] at h; cases h
    · rw [if_neg he] at h
      injection h with h
      subst h
      refine ⟨?_, ?_⟩
      · intro hc
        have hdata : cs1.takeWhile Char.isDigit = [] := congrArg String.data hc
        rw [hdata] at he
        exact he rfl
      · exact List.all_eq_true.mpr (fun c hc => List.mem_takeWhile_imp hc)

/-- The second alternative can only match at a position where the first
alternative matches as well (there, the text starts `bet of 0 (`, so the
first alternative captures the digit `0`). -/
theorem tryAlt2_imp_tryAlt1 (cs : List Char) (w : String)
    (h : tryAlt2 cs = some w) : tryAlt1 cs = some "0" := by
  have hp : "bet of 0 (".data.isPrefixOf cs = true := by
    cases hq : ("bet of 0 (".data.isPrefixOf cs) with
    | true => rfl
    | false =>
      unfold tryAlt2 dropLit at h
      rw [hq] at h
      simp at h
  obtain ⟨t, ht⟩ := List.isPrefixOf_iff_prefix.mp hp
  subst ht
  rfl

/-- Whenever the amount regular expression matches, its first capture group
is present and holds a nonempty digit string. -/
theorem reSearchBetOf_group1 (cs : List Char)
    (g : Option String × Option String) (h : reSearchBetOf cs = some g) :
    ∃ d, g.1 = some d ∧ d ≠ "" ∧ d.data.all Char.isDigit = true := by
  induction cs with
  | nil => rw [reSearchBetOf] at h; cases h
  | cons c rest ih =>
    rw [reSearchBetOf] at h
    cases h1 : tryAlt1 (c :: rest) with
    | some d =>
      rw [h1] at h
      obtain ⟨hd1, hd2⟩ := tryAlt1_some_digits _ _ h1
      injection h with h
      exact ⟨d, by rw [← h], hd1, hd2⟩
    | none =>
      rw [h1] at h
      cases h2 : tryAlt2 (c :: rest) with
      | some w =>
        have h0 := tryAlt2_imp_tryAlt1 _ _ h2
        rw [h0] at h1
        cases h1
      | none =>
        rw [h2] at h
        exact ih h

/-- Claim C9: for every emitted bet-type row, the amount field is a nonempty
decimal digit string: whenever the amount regular expression matches a
message its first capture group is present (the second alternative never
supplies the match alone), and when the regex does not match the amount is
the literal `"0"`. -/
theorem c9_amount_digits (msg : String) :
    (∀ g, reSearchBetOf msg.data = some g →
      ∃ d, g.1 = some d ∧ d ≠ "" ∧ d.data.all Char.isDigit = true) ∧
    (reSearchBetOf msg.data = none → amtOf msg = "0") ∧
    amtOf msg ≠ "" ∧ (amtOf msg).data.all Char.isDigit = true := by
  refine ⟨fun g h => reSearchBetOf_group1 _ _ h, ?_, ?_⟩
  · intro h
    unfold amtOf
    rw [h]
  · unfold amtOf
    cases hr : reSearchBetOf msg.data with
    | none => exact ⟨by decide, by decide⟩
    | some g =>
      obtain ⟨d, hd1, hd2, hd3⟩ := reSearchBetOf_group1 _ _ hr
      obtain ⟨g1, g2⟩ := g
      simp only at hd1
      subst hd1
      show (if d = "" then "0" else d) ≠ "" ∧
        (if d = "" then "0" else d).data.all Char.isDigit = true
      rw [if_neg hd2]
      exact ⟨hd2, hd3⟩

/-- Witness for C9 at the spec's bet message: the regex matches with group 1
`"40"`, and the amount field is that nonempty digit string. -/
theorem c9_amount_digits_witness :
    (∃ d, ((some "40" : Option String), (none : Option String)).1 = some d ∧
      d ≠ "" ∧ d.data.all Char.isDigit = true) ∧
    amtOf "The Real Donkey Killers: bet of 40 (raise)" ≠ "" :=
  ⟨(c9_amount_digits "The Real Donkey Killers: bet of 40 (raise)").1
      (some "40", none) (by rfl),
   (c9_amount_digits "The Real Donkey Killers: bet of 40 (raise)").2.2.1⟩

/-- The rows emitted by the event loop are a sublist of the rows each event
would contribute, in order (truncated at the first crashing event). -/
theorem processEvents_sublist (team : String) (evs : List JVal) :
    List.Sublist (processEvents team evs).1 (evs.filterMap (rowOpt team)) := by
  induction evs with
  | nil => exact List.nil_sublist _
  | cons ev rest ih =>
    rw [processEvents, List.filterMap_cons]
    cases hp : processEvent team ev with
    | error e =>
      rw [show rowOpt team ev = none by rw [rowOpt, hp]]
      exact List.nil_sublist _
    | ok r =>
      cases r with
      | none =>
        rw [show rowOpt team ev = none by rw [rowOpt, hp]]
        exact ih
      | some row =>
        rw [show rowOpt team ev = some row by rw [rowOpt, hp]]
        exact List.Sublist.cons₂ row ih

/-- When no event crashes, the emitted rows are exactly the per-event rows. -/
theorem processEvents_no_error (team : String) (evs : List JVal)
    (h : (processEvents team evs).2 = none) :
    (processEvents team evs).1 = evs.filterMap (rowOpt team) := by
  induction evs with
  | nil => rfl
  | cons ev rest ih =>
    rw [processEvents, List.filterMap_cons] at *
    cases hp : processEvent team ev with
    | error e =>
      rw [hp] at h
      cases h
    | ok r =>
      rw [hp] at h
      cases r with
      | none =>
        rw [show rowOpt team ev = none by rw [rowOpt, hp]]
        exact ih h
      | some row =>
        rw [show rowOpt team ev = some row by rw [rowOpt, hp]]
        dsimp only at h ⊢
        rw [ih h]

/-- Claim C7: the emitted data rows are a strict subsequence of the input
events in original order — each row comes from exactly one event via
`rowOpt`, rows keep the relative order of their source events, no event
yields more than one row, none are reordered or deduplicated (exactly the
`filterMap` when no event crashes) — and the header is printed exactly once
before any data row. -/
theorem c7_subsequence (team : String) (evs : List JVal) :
    summarizeEvents team evs =
      (headerLine :: (processEvents team evs).1, (processEvents team evs).2) ∧
    List.Sublist (processEvents team evs).1 (evs.filterMap (rowOpt team)) ∧
    ((processEvents team evs).2 = none →
      (processEvents team evs).1 = evs.filterMap (rowOpt team)) :=
  ⟨rfl, processEvents_sublist team evs, processEvents_no_error team evs⟩

/-- Witness for C7 at a three-event list (one bet row, one skipped event,
one winner row). -/
theorem c7_subsequence_witness :
    (processEvents "The Real Donkey Killers"
      [.obj [("type", .str "bet"),
             ("message", .str "The Real Donkey Killers: bet of 5 (raise)")],
       .obj [("type", .str "log")],
       .obj [("type", .str "winner_announcement"),
             ("message", .str "The Real Donkey Killers won the pot")]]).1 =
    List.filterMap (rowOpt "The Real Donkey Killers")
      [.obj [("type", .str "bet"),
             ("message", .str "The Real Donkey Killers: bet of 5 (raise)")],
       .obj [("type", .str "log")],
       .obj [("type", .str "winner_announcement"),
             ("message", .str "The Real Donkey Killers won the pot")]] :=
  (c7_subsequence "The Real Donkey Killers"
    [.obj [("type", .str "bet"),
           ("message", .str "The Real Donkey Killers: bet of 5 (raise)")],
     .obj [("type", .str "log")],
     .obj [("type", .str "winner_announcement"),
           ("message", .str "The Real Donkey Killers won the pot")]]).2.2
    (by rfl)

/-- Binding a success into a continuation reduces to the continuation. -/
@[simp] theorem ok_bind {α β : Type} (a : α) (f : α → Except Err β) :
    (Except.ok a >>= f : Except Err β) = f a := rfl

/-- Pure values in the error monad are successes. -/
@[simp] theorem pure_eq_ok {α : Type} (a : α) :
    (pure a : Except Err α) = .ok a := rfl

/-- A well-formed `message` field defaults to a string. -/
theorem msgOk_str (kvs : List (String × JVal)) (h : msgOk kvs = true) :
    ∃ m, (lookupKey kvs "message").getD (.str "") = .str m := by
  unfold msgOk at h
  cases hl : lookupKey kvs "message" with
  | none => exact ⟨"", rfl⟩
  | some v =>
    rw [hl] at h
    cases v
    case str s => exact ⟨s, rfl⟩
    all_goals cases h

/-- A well-formed `game_state` field defaults to an object with well-formed
`community_cards`. -/
theorem gsOk_obj (kvs : List (String × JVal)) (h : gsOk kvs = true) :
    ∃ gkvs, (lookupKey kvs "game_state").getD (.obj []) = .obj gkvs ∧
      ccOk gkvs = true := by
  unfold gsOk at h
  cases hl : lookupKey kvs "game_state" with
  | none => exact ⟨[], rfl, rfl⟩
  | some v =>
    rw [hl] at h
    cases v
    case obj gkvs => exact ⟨gkvs, rfl, h⟩
    all_goals cases h

/-- On an object with well-formed `community_cards`, `street_from_state`
succeeds. -/
theorem street_ok (gkvs : List (String × JVal)) (h : ccOk gkvs = true) :
    ∃ st, street_from_state (.obj gkvs) = .ok st := by
  unfold ccOk at h
  cases hl : lookupKey gkvs "community_cards" with
  | none =>
    exact ⟨"PRE", by simp [street_from_state, jGet, hl, pyLen, streetName]⟩
  | some v =>
    rw [hl] at h
    cases v
    case arr xs =>
      exact ⟨streetName xs.length,
        by simp [street_from_state, jGet, hl, pyLen, streetName]⟩
    all_goals cases h

/-- Characterization of the loop body on an event object whose `message`
defaults to the string `m`, whose `game_state` defaults to the object
`gkvs`, and whose street computation succeeds: the script's two emitting
branches and the skip branch, with the exact row layouts. -/
theorem processEvent_obj (team : String) (kvs gkvs : List (String × JVal))
    (m : String) (st : String)
    (hm : (lookupKey kvs "message").getD (.str "") = .str m)
    (hgk : (lookupKey kvs "game_state").getD (.obj []) = .obj gkvs)
    (hst : street_from_state (.obj gkvs) = .ok st) :
    processEvent team (.obj kvs) =
      if pyEqStr ((lookupKey kvs "type").getD (.str "")) "bet" then
        (if hasSubstr m team then
          .ok (some (tabRow
            [pyStr ((lookupKey gkvs "round").getD (.str "")), st,
             actOf m (amtOf m), amtOf m,
             pyStr ((lookupKey gkvs "pot").getD (.str "")),
             pyStr ((lookupKey gkvs "current_buy_in").getD (.str "")), m]))
        else .ok none)
      else if pyEqStr ((lookupKey kvs "type").getD (.str ""))
          "winner_announcement" then
        (if hasSubstr m team then
          .ok (some (tabRow
            [pyStr ((lookupKey gkvs "round").getD (.str "")), st,
             "won", "",
             pyStr ((lookupKey gkvs "pot").getD (.str "")),
             pyStr ((lookupKey gkvs "current_buy_in").getD (.str "")), m]))
        else .ok none)
      else .ok none := by
  by_cases hb : pyEqStr ((lookupKey kvs "type").getD (.str "")) "bet" = true
  · by_cases hhit : hasSubstr m team = true
    · simp [processEvent, jGet, hm, hgk, pyIn, hst, hb, hhit, pyStr]
    · simp [processEvent, jGet, hm, hgk, pyIn, hst, hb, hhit]
  · by_cases hw : pyEqStr ((lookupKey kvs "type").getD (.str ""))
        "winner_announcement" = true
    · by_cases hhit : hasSubstr m team = true
      · simp [processEvent, jGet, hm, hgk, pyIn, hst, hb, hw, hhit, pyStr]
      · simp [processEvent, jGet, hm, hgk, pyIn, hst, hb, hw, hhit]
    · simp [processEvent, jGet, hm, hgk, pyIn, hst, hb, hw]

/-- On a well-formed event the loop body never raises, and it emits a row
exactly when the event is relevant (matching type and team in message). -/
theorem processEvent_wf (team : String) (ev : JVal)
    (h : WellFormedEv ev = true) :
    ∃ r, processEvent team ev = .ok r ∧ r.isSome = relevantEv team ev := by
  cases ev with
  | obj kvs =>
    rw [WellFormedEv] at h
    obtain ⟨hmsg, hgs⟩ := Bool.and_eq_true_iff.mp h
    obtain ⟨m, hm⟩ := msgOk_str kvs hmsg
    obtain ⟨gkvs, hgk, hcc⟩ := gsOk_obj kvs hgs
    obtain ⟨st, hst⟩ := street_ok gkvs hcc
    rw [processEvent_obj team kvs gkvs m st hm hgk hst]
    have hrel : relevantEv team (.obj kvs) =
        ((pyEqStr ((lookupKey kvs "type").getD (.str "")) "bet" &&
          hasSubstr m team) ||
         (pyEqStr ((lookupKey kvs "type").getD (.str ""))
            "winner_announcement" && hasSubstr m team)) := by
      rw [relevantEv, hm]
    by_cases hb : pyEqStr ((lookupKey kvs "type").getD (.str "")) "bet" = true
    · by_cases hhit : hasSubstr m team = true
      · exact ⟨_, by rw [if_pos hb, if_pos hhit], by
          simp [hrel, hb, hhit]⟩
      · exact ⟨none, by
          rw [if_pos hb, if_neg (by simpa using hhit)], by
          simp [hrel, hb, hhit]⟩
    · by_cases hw : pyEqStr ((lookupKey kvs "type").getD (.str ""))
          "winner_announcement" = true
      · by_cases hhit : hasSubstr m team = true
        · exact ⟨_, by
            rw [if_neg (by simpa using hb), if_pos hw, if_pos hhit], by
            simp [hrel, hb, hw, hhit]⟩
        · exact ⟨none, by
            rw [if_neg (by simpa using hb), if_pos hw,
              if_neg (by simpa using hhit)], by
            simp [hrel, hb, hw, hhit]⟩
      · exact ⟨none, by
          rw [if_neg (by simpa using hb), if_neg (by simpa using hw)], by
          simp [hrel, hb, hw]⟩
  | null => cases h
  | bool b => cases h
  | num n => cases h
  | str s => cases h
  | arr xs => cases h

/-- Claim C1: over any sequence of well-formed events the pass never raises,
and the number of TSV data lines printed after the header equals the number
of events whose type is `"bet"` and whose message contains the team name,
plus the number whose type is `"winner_announcement"` and whose message
contains the team name; all other events produce no line. -/
theorem c1_row_count (team : String) (evs : List JVal)
    (h : ∀ ev ∈ evs, WellFormedEv ev = true) :
    (processEvents team evs).2 = none ∧
    (processEvents team evs).1.length = List.countP (relevantEv team) evs := by
  induction evs with
  | nil => exact ⟨rfl, rfl⟩
  | cons ev rest ih =>
    obtain ⟨r, hr, hsome⟩ := processEvent_wf team ev (h ev (by simp))
    obtain ⟨ih1, ih2⟩ := ih (fun e he => h e (List.mem_cons_of_mem ev he))
    rw [processEvents, hr, List.countP_cons]
    cases r with
    | none =>
      have hrel : relevantEv team ev = false := by simpa using hsome.symm
      rw [hrel]
      simpa [ih2] using ih1
    | some row =>
      have hrel : relevantEv team ev = true := by simpa using hsome.symm
      rw [hrel]
      exact ⟨ih1, by simpa using ih2⟩

/-- Witness for C1 at a three-event list: a matching bet, an irrelevant log
event, and a matching winner announcement give two data rows. -/
theorem c1_row_count_witness :
    (processEvents "The Real Donkey Killers"
      [.obj [("type", .str "bet"),
             ("message", .str "The Real Donkey Killers: bet of 5 (raise)")],
       .obj [("type", .str "log"), ("message", .str "community cards")],
       .obj [("type", .str "winner_announcement"),
             ("message", .str "The Real Donkey Killers won")]]).2 = none ∧
    (processEvents "The Real Donkey Killers"
      [.obj [("type", .str "bet"),
             ("message", .str "The Real Donkey Killers: bet of 5 (raise)")],
       .obj [("type", .str "log"), ("message", .str "community cards")],
       .obj [("type", .str "winner_announcement"),
             ("message", .str "The Real Donkey Killers won")]]).1.length =
      List.countP (relevantEv "The Real Donkey Killers")
        [.obj [("type", .str "bet"),
               ("message", .str "The Real Donkey Killers: bet of 5 (raise)")],
         .obj [("type", .str "log"), ("message", .str "community cards")],
         .obj [("type", .str "winner_announcement"),
               ("message", .str "The Real Donkey Killers won")]] :=
  c1_row_count "The Real Donkey Killers"
    [.obj [("type", .str "bet"),
           ("message", .str "The Real Donkey Killers: bet of 5 (raise)")],
     .obj [("type", .str "log"), ("message", .str "community cards")],
     .obj [("type", .str "winner_announcement"),
           ("message", .str "The Real Donkey Killers won")]]
    (by decide)

/-- Claim C4: every emitted winner-announcement row consists of exactly seven
tab-separated fields — the round (default empty string), the street from
`street_from_state`, the literal `"won"`, an empty amount field, the pot, the
`current_buy_in`, and the message; with `community_cards` of length 5 and pot
250 the row is `<round>, "RIVER", "won", "", "250", <buyin>, <message>`. -/
theorem c4_winner_row (team : String) (kvs gkvs : List (String × JVal))
    (m : String) (xs : List JVal)
    (ht : lookupKey kvs "type" = some (.str "winner_announcement"))
    (hm : lookupKey kvs "message" = some (.str m))
    (hgk : (lookupKey kvs "game_state").getD (.obj []) = .obj gkvs)
    (hsub : hasSubstr m team = true) :
    (∀ st, street_from_state (.obj gkvs) = .ok st →
      processEvent team (.obj kvs) = .ok (some (tabRow
        [pyStr ((lookupKey gkvs "round").getD (.str "")), st, "won", "",
         pyStr ((lookupKey gkvs "pot").getD (.str "")),
         pyStr ((lookupKey gkvs "current_buy_in").getD (.str "")), m]))) ∧
    (lookupKey gkvs "community_cards" = some (.arr xs) → xs.length = 5 →
     lookupKey gkvs "pot" = some (.num 250) →
      processEvent team (.obj kvs) = .ok (some (tabRow
        [pyStr ((lookupKey gkvs "round").getD (.str "")), "RIVER", "won", "",
         "250",
         pyStr ((lookupKey gkvs "current_buy_in").getD (.str "")), m]))) := by
  have hmd : (lookupKey kvs "message").getD (.str "") = .str m := by
    rw [hm]
    rfl
  have main1 : ∀ st, street_from_state (.obj gkvs) = .ok st →
      processEvent team (.obj kvs) = .ok (some (tabRow
        [pyStr ((lookupKey gkvs "round").getD (.str "")), st, "won", "",
         pyStr ((lookupKey gkvs "pot").getD (.str "")),
         pyStr ((lookupKey gkvs "current_buy_in").getD (.str "")), m])) := by
    intro st hst
    rw [processEvent_obj team kvs gkvs m st hmd hgk hst]
    simp [ht, pyEqStr, hsub]
  refine ⟨main1, ?_⟩
  intro hcc hx5 hpot
  have hst : street_from_state (.obj gkvs) = .ok "RIVER" := by
    simp [street_from_state, jGet, hcc, pyLen, hx5, streetName]
  have hps : pyStr ((lookupKey gkvs "pot").getD (.str "")) = "250" := by
    rw [hpot]
    rfl
  have h2 := main1 "RIVER" hst
  rw [hps] at h2
  exact h2

/-- Witness for C4 at a concrete winner event on a five-card board with pot
250. -/
theorem c4_winner_row_witness :
    processEvent "The Real Donkey Killers"
      (.obj [("type", .str "winner_announcement"),
             ("message", .str "The Real Donkey Killers won the pot"),
             ("game_state", .obj
               [("round", .num 7),
                ("community_cards", .arr [.null, .null, .null, .null, .null]),
                ("pot", .num 250),
                ("current_buy_in", .num 10)])]) =
      .ok (some (tabRow
        [pyStr ((lookupKey
            [("round", JVal.num 7),
             ("community_cards", JVal.arr [.null, .null, .null, .null, .null]),
             ("pot", JVal.num 250),
             ("current_buy_in", JVal.num 10)] "round").getD (.str "")),
         "RIVER", "won", "", "250",
         pyStr ((lookupKey
            [("round", JVal.num 7),
             ("community_cards", JVal.arr [.null, .null, .null, .null, .null]),
             ("pot", JVal.num 250),
             ("current_buy_in", JVal.num 10)] "current_buy_in").getD (.str "")),
         "The Real Donkey Killers won the pot"])) :=
  (c4_winner_row "The Real Donkey Killers"
    [("type", .str "winner_announcement"),
     ("message", .str "The Real Donkey Killers won the pot"),
     ("game_state", .obj
       [("round", .num 7),
        ("community_cards", .arr [.null, .null, .null, .null, .null]),
        ("pot", .num 250),
        ("current_buy_in", .num 10)])]
    [("round", .num 7),
     ("community_cards", .arr [.null, .null, .null, .null, .null]),
     ("pot", .num 250),
     ("current_buy_in", .num 10)]
    "The Real Donkey Killers won the pot"
    [.null, .null, .null, .null, .null]
    (by rfl) (by rfl) (by rfl) (by decide)).2 (by rfl) (by rfl) (by rfl)

end SummarizeLogs
